import Mathlib

/-!
Shallow embedding of the chessgame repository (Python) in Lean 4.

Source files embedded:
- src/chessgame/chess/pieces.py  (piece data model)
- src/chessgame/chess/board.py   (board creation and queries)
- src/chessgame/chess/engine.py  (ChessEngine: move validation and game logic)
- src/chessgame/chessgame.py     (ChessState: the game state machine)

Conventions of the embedding:
- Python `list[list[Piece]]` becomes `Grid := List (List Piece)`.
- Board coordinates are `Int` (Python ints).  All grid reads/writes performed
  by the source occur at in-range indices 0..7, so `pieceAt`/`setPiece` guard
  on that range and treat out-of-range reads as empty and out-of-range writes
  as no-ops.
- In-place mutation with restore (`would_leave_king_in_check`,
  `is_valid_castling`) is modelled by returning the final grid alongside the
  boolean result, so that (non-)mutation is provable.
- Python booleans/strings/enums map to `Bool`/`String`/inductive types;
  `None` maps to `Option.none`.
-/

/-- Enum for piece types (pieces.py `PieceType`).  `value` strings are
modelled by `pieceValue`. -/
inductive PieceType where
  | PAWN
  | KNIGHT
  | BISHOP
  | ROOK
  | QUEEN
  | KING
  | NONE
deriving DecidableEq, Repr

/-- Enum for player types (pieces.py `PlayerType`). -/
inductive PlayerType where
  | WHITE
  | BLACK
  | NONE
deriving DecidableEq, Repr

/-- The `.value` string of a `PieceType` (pieces.py). -/
def pieceValue : PieceType → String
  | PieceType.PAWN => "pawn"
  | PieceType.KNIGHT => "knight"
  | PieceType.BISHOP => "bishop"
  | PieceType.ROOK => "rook"
  | PieceType.QUEEN => "queen"
  | PieceType.KING => "king"
  | PieceType.NONE => "none"

/-- The `.value` string of a `PlayerType` (pieces.py). -/
def playerValue : PlayerType → String
  | PlayerType.WHITE => "W"
  | PlayerType.BLACK => "B"
  | PlayerType.NONE => "none"

/-- Class for chess pieces (pieces.py `Piece`). -/
structure Piece where
  type : PieceType
  owner : PlayerType
deriving DecidableEq, Repr

/-- Constant for empty squares (pieces.py `NO_PIECE`). -/
def NO_PIECE : Piece := ⟨PieceType.NONE, PlayerType.NONE⟩

/-- The board: Python `list[list[Piece]]`. -/
abbrev Grid := List (List Piece)

/-- Read `grid[r][c]`.  The source only reads indices in 0..7; out-of-range
reads are modelled as the empty square. -/
def pieceAt (g : Grid) (r c : Int) : Piece :=
  if 0 ≤ r ∧ r < 8 ∧ 0 ≤ c ∧ c < 8 then
    (g.getD r.toNat []).getD c.toNat NO_PIECE
  else NO_PIECE

/-- Write `grid[r][c] = p`.  The source only writes indices in 0..7;
out-of-range writes are modelled as no-ops. -/
def setPiece (g : Grid) (r c : Int) (p : Piece) : Grid :=
  if 0 ≤ r ∧ r < 8 ∧ 0 ≤ c ∧ c < 8 then
    g.set r.toNat ((g.getD r.toNat []).set c.toNat p)
  else g

/-- The list [0,…,7], for Python `range(8)` loops over board coordinates. -/
def range8 : List Int := [0, 1, 2, 3, 4, 5, 6, 7]

/-- Python `range(a, b)` as a list of `Int`. -/
def intRange (a b : Int) : List Int :=
  (List.range (b - a).toNat).map (fun i => a + i)

/-- A grid is a well-formed board: 8 rows of 8 squares (spec §3 invariant
"board is always 8×8"). -/
def WFGrid (g : Grid) : Prop :=
  g.length = 8 ∧ ∀ row ∈ g, row.length = 8

instance : DecidablePred WFGrid := fun g => by
  unfold WFGrid; infer_instance

/-- Creates the default chess starting position (board.py
`create_default_board`). -/
def create_default_board : Grid :=
  [ [⟨PieceType.ROOK, PlayerType.BLACK⟩, ⟨PieceType.KNIGHT, PlayerType.BLACK⟩,
     ⟨PieceType.BISHOP, PlayerType.BLACK⟩, ⟨PieceType.QUEEN, PlayerType.BLACK⟩,
     ⟨PieceType.KING, PlayerType.BLACK⟩, ⟨PieceType.BISHOP, PlayerType.BLACK⟩,
     ⟨PieceType.KNIGHT, PlayerType.BLACK⟩, ⟨PieceType.ROOK, PlayerType.BLACK⟩],
    [⟨PieceType.PAWN, PlayerType.BLACK⟩, ⟨PieceType.PAWN, PlayerType.BLACK⟩,
     ⟨PieceType.PAWN, PlayerType.BLACK⟩, ⟨PieceType.PAWN, PlayerType.BLACK⟩,
     ⟨PieceType.PAWN, PlayerType.BLACK⟩, ⟨PieceType.PAWN, PlayerType.BLACK⟩,
     ⟨PieceType.PAWN, PlayerType.BLACK⟩, ⟨PieceType.PAWN, PlayerType.BLACK⟩],
    [NO_PIECE, NO_PIECE, NO_PIECE, NO_PIECE, NO_PIECE, NO_PIECE, NO_PIECE, NO_PIECE],
    [NO_PIECE, NO_PIECE, NO_PIECE, NO_PIECE, NO_PIECE, NO_PIECE, NO_PIECE, NO_PIECE],
    [NO_PIECE, NO_PIECE, NO_PIECE, NO_PIECE, NO_PIECE, NO_PIECE, NO_PIECE, NO_PIECE],
    [NO_PIECE, NO_PIECE, NO_PIECE, NO_PIECE, NO_PIECE, NO_PIECE, NO_PIECE, NO_PIECE],
    [⟨PieceType.PAWN, PlayerType.WHITE⟩, ⟨PieceType.PAWN, PlayerType.WHITE⟩,
     ⟨PieceType.PAWN, PlayerType.WHITE⟩, ⟨PieceType.PAWN, PlayerType.WHITE⟩,
     ⟨PieceType.PAWN, PlayerType.WHITE⟩, ⟨PieceType.PAWN, PlayerType.WHITE⟩,
     ⟨PieceType.PAWN, PlayerType.WHITE⟩, ⟨PieceType.PAWN, PlayerType.WHITE⟩],
    [⟨PieceType.ROOK, PlayerType.WHITE⟩, ⟨PieceType.KNIGHT, PlayerType.WHITE⟩,
     ⟨PieceType.BISHOP, PlayerType.WHITE⟩, ⟨PieceType.QUEEN, PlayerType.WHITE⟩,
     ⟨PieceType.KING, PlayerType.WHITE⟩, ⟨PieceType.BISHOP, PlayerType.WHITE⟩,
     ⟨PieceType.KNIGHT, PlayerType.WHITE⟩, ⟨PieceType.ROOK, PlayerType.WHITE⟩] ]

/-- Find the position of the king for the given player (board.py
`find_king`): first match in row-major scan order, `none` if absent. -/
def find_king (g : Grid) (p : PlayerType) : Option (Int × Int) :=
  range8.findSome? fun row =>
    range8.findSome? fun col =>
      let piece := pieceAt g row col
      if piece.type = PieceType.KING ∧ piece.owner = p then some (row, col) else none

/-- Create a copy of the board (board.py `copy_board`); with value
semantics this is the identity on the list of rows. -/
def copy_board (g : Grid) : Grid := g.map (fun row => row)

/-- Validates pawn moves (engine.py `ChessEngine._is_valid_pawn_move`). -/
def is_valid_pawn_move (g : Grid) (from_row from_col to_row to_col : Int)
    (owner : PlayerType) (en_passant_target : Option (Int × Int)) : Bool :=
  -- White moves up (negative), Black moves down (positive)
  let direction : Int := if owner = PlayerType.WHITE then -1 else 1
  let start_row : Int := if owner = PlayerType.WHITE then 6 else 1
  if from_col = to_col then
    -- One square forward
    if to_row = from_row + direction then
      (pieceAt g to_row to_col).type = PieceType.NONE
    -- Two squares forward from starting position
    else if from_row = start_row ∧ to_row = from_row + 2 * direction then
      (pieceAt g to_row to_col).type = PieceType.NONE ∧
        (pieceAt g (from_row + direction) to_col).type = PieceType.NONE
    else false
  -- Diagonal captures
  else if (from_col - to_col).natAbs = 1 ∧ to_row = from_row + direction then
    let target_piece := pieceAt g to_row to_col
    -- Regular diagonal capture
    if target_piece.type ≠ PieceType.NONE ∧ target_piece.owner ≠ owner then true
    -- En passant capture
    else if en_passant_target.isSome ∧ en_passant_target = some (to_row, to_col) ∧
        target_piece.type = PieceType.NONE then true
    else false
  else false

/-- One step of the `while` loop of engine.py `ChessEngine._is_path_clear`.
The fuel bound 8 covers every call the source makes (straight or diagonal
lines on an 8×8 board, so at most 7 intermediate squares). -/
def pathClearAux (g : Grid) (current_row current_col to_row to_col row_step col_step : Int) :
    Nat → Bool
  | 0 => true
  | fuel + 1 =>
    if current_row = to_row ∧ current_col = to_col then true
    else if (pieceAt g current_row current_col).type ≠ PieceType.NONE then false
    else pathClearAux g (current_row + row_step) (current_col + col_step)
      to_row to_col row_step col_step fuel

/-- Checks if path between two squares is clear, excluding endpoints
(engine.py `ChessEngine._is_path_clear`). -/
def is_path_clear (g : Grid) (from_row from_col to_row to_col : Int) : Bool :=
  let row_step : Int := if from_row = to_row then 0 else if to_row > from_row then 1 else -1
  let col_step : Int := if from_col = to_col then 0 else if to_col > from_col then 1 else -1
  pathClearAux g (from_row + row_step) (from_col + col_step) to_row to_col row_step col_step 8

/-- Validates rook moves (engine.py `ChessEngine._is_valid_rook_move`). -/
def is_valid_rook_move (g : Grid) (from_row from_col to_row to_col : Int) : Bool :=
  if from_row ≠ to_row ∧ from_col ≠ to_col then false
  else is_path_clear g from_row from_col to_row to_col

/-- Validates bishop moves (engine.py `ChessEngine._is_valid_bishop_move`). -/
def is_valid_bishop_move (g : Grid) (from_row from_col to_row to_col : Int) : Bool :=
  if (from_row - to_row).natAbs ≠ (from_col - to_col).natAbs then false
  else is_path_clear g from_row from_col to_row to_col

/-- Validates knight moves (engine.py `ChessEngine._is_valid_knight_move`). -/
def is_valid_knight_move (_g : Grid) (from_row from_col to_row to_col : Int) : Bool :=
  let row_diff := (from_row - to_row).natAbs
  let col_diff := (from_col - to_col).natAbs
  (row_diff = 2 ∧ col_diff = 1) ∨ (row_diff = 1 ∧ col_diff = 2)

/-- Validates queen moves (engine.py `ChessEngine._is_valid_queen_move`). -/
def is_valid_queen_move (g : Grid) (from_row from_col to_row to_col : Int) : Bool :=
  is_valid_rook_move g from_row from_col to_row to_col ||
    is_valid_bishop_move g from_row from_col to_row to_col

/-- Validates king moves, one square in any direction (engine.py
`ChessEngine._is_valid_king_move`). -/
def is_valid_king_move (_g : Grid) (from_row from_col to_row to_col : Int) : Bool :=
  (from_row - to_row).natAbs ≤ 1 ∧ (from_col - to_col).natAbs ≤ 1

/-- Check if this is a castling move, i.e. a king moving 2 squares
horizontally (engine.py `ChessEngine.is_castling_move`). -/
def is_castling_move (g : Grid) (from_row from_col to_row to_col : Int) : Bool :=
  let piece := pieceAt g from_row from_col
  if piece.type ≠ PieceType.KING then false
  else from_row = to_row ∧ (from_col - to_col).natAbs = 2

/-- Validates if a move is legal according to chess rules (engine.py
`ChessEngine.is_valid_move`). -/
def is_valid_move (g : Grid) (from_row from_col to_row to_col : Int)
    (en_passant_target : Option (Int × Int)) : Bool :=
  -- Bounds check
  if ¬(0 ≤ to_row ∧ to_row < 8 ∧ 0 ≤ to_col ∧ to_col < 8) then false
  else
    let piece := pieceAt g from_row from_col
    if piece.type = PieceType.NONE then false
    -- Can't move to same square
    else if from_row = to_row ∧ from_col = to_col then false
    else
      -- Can't move to square occupied by own piece
      let destination_piece := pieceAt g to_row to_col
      if destination_piece.type ≠ PieceType.NONE ∧ destination_piece.owner = piece.owner then
        false
      else
        -- Piece-specific validation
        match piece.type with
        | PieceType.PAWN =>
          is_valid_pawn_move g from_row from_col to_row to_col piece.owner en_passant_target
        | PieceType.ROOK => is_valid_rook_move g from_row from_col to_row to_col
        | PieceType.BISHOP => is_valid_bishop_move g from_row from_col to_row to_col
        | PieceType.KNIGHT => is_valid_knight_move g from_row from_col to_row to_col
        | PieceType.QUEEN => is_valid_queen_move g from_row from_col to_row to_col
        | PieceType.KING =>
          -- Castling validation is handled separately in the UI layer
          if is_castling_move g from_row from_col to_row to_col then true
          else is_valid_king_move g from_row from_col to_row to_col
        | PieceType.NONE => false

/-- Check if a square is under attack by any piece of the given player
(engine.py `ChessEngine.is_square_under_attack`).  The source calls
`is_valid_move` without an en-passant target (defaulting to `None`). -/
def is_square_under_attack (g : Grid) (row col : Int) (by_player : PlayerType) : Bool :=
  range8.any fun attack_row =>
    range8.any fun attack_col =>
      let piece := pieceAt g attack_row attack_col
      -- Skip empty squares and pieces not owned by the attacking player
      if piece.type = PieceType.NONE ∨ piece.owner ≠ by_player then false
      else is_valid_move g attack_row attack_col row col none

/-- Check if the given player's king is in check (engine.py
`ChessEngine.is_in_check`). -/
def is_in_check (g : Grid) (player : PlayerType) : Bool :=
  match find_king g player with
  | none => false  -- No king found (shouldn't happen in normal game)
  | some (king_row, king_col) =>
    let enemy_player :=
      if player = PlayerType.WHITE then PlayerType.BLACK else PlayerType.WHITE
    is_square_under_attack g king_row king_col enemy_player

/-- Check if a move would leave the player's king in check (engine.py
`ChessEngine.would_leave_king_in_check`).  The Python function temporarily
mutates the shared grid and restores it before returning; the embedding
returns the boolean together with the grid as it stands after the restore
writes, so the frame property is provable. -/
def would_leave_king_in_check (g : Grid) (from_row from_col to_row to_col : Int)
    (player : PlayerType) : Bool × Grid :=
  -- Save the current state
  let original_piece := pieceAt g from_row from_col
  let captured_piece := pieceAt g to_row to_col
  -- Temporarily make the move
  let g1 := setPiece g to_row to_col original_piece
  let g2 := setPiece g1 from_row from_col NO_PIECE
  -- Check if king is in check after the move
  let king_in_check := is_in_check g2 player
  -- Restore the original state
  let g3 := setPiece g2 from_row from_col original_piece
  let g4 := setPiece g3 to_row to_col captured_piece
  (king_in_check, g4)

/-- One probe iteration of the castling transit-check loop in engine.py
`ChessEngine.is_valid_castling`: temporarily relocate the king to
`test_col`, evaluate check, then write the king back and clear the test
square. -/
def castlingProbe (g : Grid) (from_row from_col test_col : Int) (player : PlayerType) :
    Bool × Grid :=
  -- Temporarily move king to test square
  let original_king := pieceAt g from_row from_col
  let g1 := setPiece g from_row from_col NO_PIECE
  let g2 := setPiece g1 from_row test_col original_king
  -- Check if king would be in check
  let in_check := is_in_check g2 player
  -- Restore original position
  let g3 := setPiece g2 from_row from_col original_king
  let g4 := setPiece g3 from_row test_col NO_PIECE
  (in_check, g4)

/-- Validates castling moves (engine.py `ChessEngine.is_valid_castling`).
Returns the boolean result together with the grid after all probe writes. -/
def is_valid_castling (g : Grid) (from_row from_col to_row to_col : Int)
    (player : PlayerType) (king_moved kingside_rook_moved queenside_rook_moved : Bool) :
    Bool × Grid :=
  let piece := pieceAt g from_row from_col
  -- Must be a king
  if piece.type ≠ PieceType.KING ∨ piece.owner ≠ player then (false, g)
  -- King must not have moved
  else if king_moved then (false, g)
  -- Must be moving 2 squares horizontally
  else if from_row ≠ to_row ∨ (from_col - to_col).natAbs ≠ 2 then (false, g)
  else
    -- Determine if kingside or queenside castling
    let is_kingside : Bool := to_col > from_col
    -- Check if corresponding rook has moved
    if is_kingside && kingside_rook_moved then (false, g)
    else if !is_kingside && queenside_rook_moved then (false, g)
    else
      -- Get rook position
      let rook_col : Int := if is_kingside then 7 else 0
      let rook := pieceAt g from_row rook_col
      -- Rook must be present and not moved
      if rook.type ≠ PieceType.ROOK ∨ rook.owner ≠ player then (false, g)
      -- Path between king and rook must be clear
      else if (intRange (min from_col rook_col + 1) (max from_col rook_col)).any
          (fun col => (pieceAt g from_row col).type ≠ PieceType.NONE) then (false, g)
      -- King must not be in check
      else if is_in_check g player then (false, g)
      else
        -- King must not pass through or end in check
        let direction : Int := if is_kingside then 1 else -1
        let p1 := castlingProbe g from_row from_col (from_col + 1 * direction) player
        if p1.fst then (false, p1.snd)
        else
          let p2 := castlingProbe p1.snd from_row from_col (from_col + 2 * direction) player
          if p2.fst then (false, p2.snd)
          else (true, p2.snd)

/-- Check if this is an en passant capture (engine.py
`ChessEngine.is_en_passant_move`). -/
def is_en_passant_move (g : Grid) (from_row from_col to_row to_col : Int)
    (en_passant_target : Option (Int × Int)) : Bool :=
  let piece := pieceAt g from_row from_col
  -- Must be a pawn
  if piece.type ≠ PieceType.PAWN then false
  -- Must be capturing diagonally to empty square
  else if (from_col - to_col).natAbs = 1 ∧
      (pieceAt g to_row to_col).type = PieceType.NONE ∧
      en_passant_target.isSome ∧ en_passant_target = some (to_row, to_col) then true
  else false

/-- Get en passant target square if a pawn moved 2 squares (engine.py
`ChessEngine.get_en_passant_target`). -/
def get_en_passant_target (from_row from_col to_row to_col : Int)
    (piece_type : PieceType) (owner : PlayerType) : Option (Int × Int) :=
  -- Only pawns can create en passant targets
  if piece_type ≠ PieceType.PAWN then none
  -- Must be moving 2 squares forward
  else if (from_row - to_row).natAbs ≠ 2 ∨ from_col ≠ to_col then none
  -- Must be from starting position
  else if owner = PlayerType.WHITE ∧ from_row ≠ 6 then none
  else if owner = PlayerType.BLACK ∧ from_row ≠ 1 then none
  else
    -- En passant target is the square the pawn "jumped over"
    some ((from_row + to_row) / 2, from_col)

/-- Check if a pawn move results in promotion (engine.py
`ChessEngine.is_pawn_promotion`). -/
def is_pawn_promotion (_from_row to_row : Int) (piece_type : PieceType)
    (owner : PlayerType) : Bool :=
  if piece_type ≠ PieceType.PAWN then false
  -- White pawns promote when reaching row 0 (rank 8)
  else if owner = PlayerType.WHITE ∧ to_row = 0 then true
  -- Black pawns promote when reaching row 7 (rank 1)
  else if owner = PlayerType.BLACK ∧ to_row = 7 then true
  else false

/-- The file letter of a column, engine.py COL_NOTATION = "abcdefgh"
indexed by an in-range column. -/
def col_letters (c : Int) : String :=
  String.singleton ("abcdefgh".toList.getD c.toNat 'a')

/-- Generates chess notation for a move (engine.py
`ChessEngine.get_chess_notation`). -/
def get_chess_san (piece_type : PieceType) (_from_row from_col to_row to_col : Int)
    (is_capture : Bool) : String :=
  -- Piece symbols (empty string for pawns; dict .get default "")
  let piece_symbol :=
    match piece_type with
    | PieceType.KING => "K"
    | PieceType.QUEEN => "Q"
    | PieceType.ROOK => "R"
    | PieceType.BISHOP => "B"
    | PieceType.KNIGHT => "N"
    | PieceType.PAWN => ""
    | PieceType.NONE => ""
  let to_square := col_letters to_col ++ toString (8 - to_row)
  if piece_type = PieceType.PAWN then
    if is_capture then col_letters from_col ++ "x" ++ to_square
    else to_square
  else
    piece_symbol ++ (if is_capture then "x" else "") ++ to_square

/-- Get all legal moves for a player (engine.py
`ChessEngine.get_all_legal_moves`): all (from,to) pairs passing
`is_valid_move` and not leaving the own king in check.  The grid returned
by `would_leave_king_in_check` equals its input (proved below), so only
the boolean component is consumed here, as in the source where the shared
grid is restored in place. -/
def get_all_legal_moves (g : Grid) (player : PlayerType)
    (en_passant_target : Option (Int × Int)) : List (Int × Int × Int × Int) :=
  range8.flatMap fun from_row =>
    range8.flatMap fun from_col =>
      let piece := pieceAt g from_row from_col
      -- Skip empty squares and opponent pieces
      if piece.type = PieceType.NONE ∨ piece.owner ≠ player then []
      else
        range8.flatMap fun to_row =>
          range8.flatMap fun to_col =>
            if is_valid_move g from_row from_col to_row to_col en_passant_target then
              if !(would_leave_king_in_check g from_row from_col to_row to_col player).fst
              then [(from_row, from_col, to_row, to_col)]
              else []
            else []

/-- Check if the given player is in checkmate (engine.py
`ChessEngine.is_checkmate`). -/
def is_checkmate (g : Grid) (player : PlayerType)
    (en_passant_target : Option (Int × Int)) : Bool :=
  -- Must be in check to be checkmate
  if !(is_in_check g player) then false
  -- If in check and no legal moves, it's checkmate
  else (get_all_legal_moves g player en_passant_target).length = 0

/-- Check if the given player is in stalemate (engine.py
`ChessEngine.is_stalemate`). -/
def is_stalemate (g : Grid) (player : PlayerType)
    (en_passant_target : Option (Int × Int)) : Bool :=
  -- Must NOT be in check to be stalemate
  if is_in_check g player then false
  -- If not in check and no legal moves, it's stalemate
  else (get_all_legal_moves g player en_passant_target).length = 0

/-!
The game state machine: chessgame.py `ChessState`.  UI-only behaviour
(toasts, prints, rendering) is not part of the state and is dropped;
every state field of the Python class is a field here.
-/

/-- The app state (chessgame.py `ChessState`): every `rx.field` of the
Python class. -/
structure ChessState where
  grid : Grid
  current_player : PlayerType
  turn_validation_enabled : Bool
  dragging_piece_row : Int
  dragging_piece_col : Int
  game_over : Bool
  winner : String
  white_king_moved : Bool
  white_kingside_rook_moved : Bool
  white_queenside_rook_moved : Bool
  black_king_moved : Bool
  black_kingside_rook_moved : Bool
  black_queenside_rook_moved : Bool
  en_passant_target : Option (Int × Int)
  promotion_pending : Bool
  promotion_row : Int
  promotion_col : Int
  promotion_player : PlayerType
  move_history : List String
  halfmove_clock : Nat
  position_history : List String
  captured_white_pieces : List Piece
  captured_black_pieces : List Piece
  board_history : List Grid
  player_history : List PlayerType
  captured_white_history : List (List Piece)
  captured_black_history : List (List Piece)
  en_passant_history : List (Option (Int × Int))
  halfmove_clock_history : List Nat
  position_history_snapshots : List (List String)
deriving DecidableEq, Repr

/-- The freshly reset game state (chessgame.py `ChessState.reset_grid`
applied to the field defaults): default board, White to move, empty
histories re-seeded with the initial snapshot. -/
def initial_state : ChessState where
  grid := copy_board create_default_board
  current_player := PlayerType.WHITE
  turn_validation_enabled := true
  dragging_piece_row := -1
  dragging_piece_col := -1
  game_over := false
  winner := ""
  white_king_moved := false
  white_kingside_rook_moved := false
  white_queenside_rook_moved := false
  black_king_moved := false
  black_kingside_rook_moved := false
  black_queenside_rook_moved := false
  en_passant_target := none
  promotion_pending := false
  promotion_row := -1
  promotion_col := -1
  promotion_player := PlayerType.NONE
  move_history := []
  halfmove_clock := 0
  position_history := []
  captured_white_pieces := []
  captured_black_pieces := []
  board_history := [copy_board (copy_board create_default_board)]
  player_history := [PlayerType.WHITE]
  captured_white_history := [[]]
  captured_black_history := [[]]
  en_passant_history := [none]
  halfmove_clock_history := [0]
  position_history_snapshots := [[]]

/-- The one-character encoding of a piece used in repetition keys
(chessgame.py `get_position_string`): first letter of `type.value`
(already lower-case), upper-cased for White.  Note both "knight" and
"king" yield the letter k.  Tabulated here because the kernel cannot
reduce `String.toUpper`. -/
def pieceChar (piece : Piece) : String :=
  let c :=
    match piece.type with
    | PieceType.PAWN => "p"
    | PieceType.KNIGHT => "k"
    | PieceType.BISHOP => "b"
    | PieceType.ROOK => "r"
    | PieceType.QUEEN => "q"
    | PieceType.KING => "k"
    | PieceType.NONE => "n"
  if piece.owner = PlayerType.WHITE then
    match piece.type with
    | PieceType.PAWN => "P"
    | PieceType.KNIGHT => "K"
    | PieceType.BISHOP => "B"
    | PieceType.ROOK => "R"
    | PieceType.QUEEN => "Q"
    | PieceType.KING => "K"
    | PieceType.NONE => "N"
  else c

/-- The castling-rights component of the repetition key (chessgame.py
`get_position_string`). -/
def castleString (s : ChessState) : String :=
  (if !s.white_king_moved && !s.white_kingside_rook_moved then "K" else "") ++
  (if !s.white_king_moved && !s.white_queenside_rook_moved then "Q" else "") ++
  (if !s.black_king_moved && !s.black_kingside_rook_moved then "k" else "") ++
  (if !s.black_king_moved && !s.black_queenside_rook_moved then "q" else "")

/-- The en-passant component of the repetition key (chessgame.py
`get_position_string`). -/
def epString (t : Option (Int × Int)) : String :=
  match t with
  | none => "none"
  | some (r, c) => toString r ++ "," ++ toString c

/-- The repetition key of the current position: board + side-to-move +
castling rights + en-passant target (chessgame.py
`ChessState.get_position_string`). -/
def get_position_string (s : ChessState) : String :=
  let board_rows := s.grid.map fun row =>
    row.foldl (fun row_str piece =>
      row_str ++ (if piece.type = PieceType.NONE then "." else pieceChar piece)) ""
  let position_parts :=
    board_rows ++
      ["turn:" ++ playerValue s.current_player] ++
      ["castle:" ++ castleString s] ++
      ["ep:" ++ epString s.en_passant_target]
  String.intercalate "|" position_parts

/-- Threefold-repetition test (chessgame.py
`ChessState.check_threefold_repetition`): counts occurrences of the
current repetition key in `position_history` and fires at count ≥ 2. -/
def check_threefold_repetition (s : ChessState) : Bool :=
  decide (2 ≤ s.position_history.count (get_position_string s))

/-- Fifty-move-rule test (chessgame.py `ChessState.check_fifty_move_rule`):
100 half-moves without pawn move or capture. -/
def check_fifty_move_rule (s : ChessState) : Bool :=
  decide (100 ≤ s.halfmove_clock)

/-- Evaluate terminal conditions and set the game-over flag and winner
(chessgame.py `ChessState.check_game_ending_conditions`); toast messages
are UI-only and dropped. -/
def check_game_ending_conditions (s : ChessState) : ChessState :=
  if s.game_over then s  -- Game already over
  -- Check for draw conditions first
  else if check_fifty_move_rule s then
    { s with game_over := true, winner := "DRAW" }
  else if check_threefold_repetition s then
    { s with game_over := true, winner := "DRAW" }
  -- Check current player for checkmate/stalemate
  else if is_checkmate s.grid s.current_player s.en_passant_target then
    { s with game_over := true,
             winner := if s.current_player = PlayerType.WHITE then "BLACK" else "WHITE" }
  else if is_stalemate s.grid s.current_player s.en_passant_target then
    { s with game_over := true, winner := "DRAW" }
  else s

/-- Undo the last move (chessgame.py `ChessState.undo_last_move`). -/
def undo_last_move (s : ChessState) : ChessState :=
  -- Need at least 2 states (starting position + 1 move) to undo
  if s.board_history.length < 2 then s
  -- Can't undo if game is over
  else if s.game_over then s
  else
    -- Remove the last move from history; remove current state from each stack
    let move_history := s.move_history.dropLast
    let board_history := s.board_history.dropLast
    let player_history := s.player_history.dropLast
    let captured_white_history := s.captured_white_history.dropLast
    let captured_black_history := s.captured_black_history.dropLast
    let en_passant_history := s.en_passant_history.dropLast
    let halfmove_clock_history := s.halfmove_clock_history.dropLast
    let position_history_snapshots := s.position_history_snapshots.dropLast
    -- Restore previous board, player, captured pieces, en passant target,
    -- and draw rule states; reset game over state
    { s with
      move_history := move_history
      board_history := board_history
      player_history := player_history
      captured_white_history := captured_white_history
      captured_black_history := captured_black_history
      en_passant_history := en_passant_history
      halfmove_clock_history := halfmove_clock_history
      position_history_snapshots := position_history_snapshots
      grid := copy_board (board_history.getLastD [])
      current_player := player_history.getLastD PlayerType.WHITE
      captured_white_pieces := captured_white_history.getLastD []
      captured_black_pieces := captured_black_history.getLastD []
      en_passant_target := en_passant_history.getLastD none
      halfmove_clock := halfmove_clock_history.getLastD 0
      position_history := position_history_snapshots.getLastD []
      game_over := false
      winner := "" }

/-- Reset drag tracking (chessgame.py `ChessState.end_drag`). -/
def end_drag (s : ChessState) : ChessState :=
  { s with dragging_piece_row := -1, dragging_piece_col := -1 }

/-- Castling validation at the state level (chessgame.py
`ChessState.is_valid_castling`): selects the castling-rights flags of the
moving player.  The grid component carries any writes made by the engine
probes. -/
def state_is_valid_castling (s : ChessState) (from_row from_col to_row to_col : Int)
    (player : PlayerType) : Bool × Grid :=
  if player = PlayerType.WHITE then
    is_valid_castling s.grid from_row from_col to_row to_col player
      s.white_king_moved s.white_kingside_rook_moved s.white_queenside_rook_moved
  else
    is_valid_castling s.grid from_row from_col to_row to_col player
      s.black_king_moved s.black_kingside_rook_moved s.black_queenside_rook_moved

/-- The move-history line appended for a completed move (chessgame.py
`on_piece_drop`), with the arrow rendered as "->". -/
def move_detail_string (move_count : Nat) (owner : PlayerType) (piece_type : PieceType)
    (source_row source_col row col : Int) (tag : String) : String :=
  toString move_count ++ ". " ++ playerValue owner ++ " " ++ pieceValue piece_type ++
    " (" ++ toString source_row ++ "," ++ toString source_col ++ ")->(" ++
    toString row ++ "," ++ toString col ++ ") [" ++ tag ++ "]"

/-- The tail of chessgame.py `ChessState.on_piece_drop` after validation
succeeds: execute the (regular / castling / en-passant / promotion) move,
update castling rights, en-passant target, draw counters, histories, and
evaluate game-ending conditions.  Toast return values are UI-only and
dropped. -/
def execute_drop (s : ChessState) (row col source_row source_col : Int)
    (piece_type : PieceType) (piece_owner : PlayerType)
    (is_castling is_en_passant is_promotion : Bool) : ChessState :=
  -- Create the piece object
  let moved_piece : Piece := ⟨piece_type, piece_owner⟩
  let destination_piece := pieceAt s.grid row col
  -- Check if capturing an opponent's piece
  let is_capture :=
    (!is_castling && destination_piece.type ≠ PieceType.NONE &&
      destination_piece.owner ≠ piece_owner) || is_en_passant
  -- Track captured pieces for regular captures
  let s :=
    if is_capture && !is_en_passant && destination_piece.type ≠ PieceType.NONE then
      if destination_piece.owner = PlayerType.WHITE then
        { s with captured_white_pieces := s.captured_white_pieces ++ [destination_piece] }
      else
        { s with captured_black_pieces := s.captured_black_pieces ++ [destination_piece] }
    else s
  let s :=
    if is_castling then
      -- Execute castling: move both king and rook
      let is_kingside : Bool := col > source_col
      let rook_from_col : Int := if is_kingside then 7 else 0
      let rook_to_col : Int := if is_kingside then 5 else 3
      -- Move king
      let g1 := setPiece s.grid row col moved_piece
      let g2 := setPiece g1 source_row source_col NO_PIECE
      -- Move rook
      let rook_piece := pieceAt g2 source_row rook_from_col
      let g3 := setPiece g2 source_row rook_to_col rook_piece
      let g4 := setPiece g3 source_row rook_from_col NO_PIECE
      { s with grid := g4 }
    else if is_en_passant then
      -- Execute en passant: move pawn and remove captured pawn
      let g1 := setPiece s.grid row col moved_piece
      let g2 := setPiece g1 source_row source_col NO_PIECE
      -- Remove the captured pawn (on the same row as the moving pawn)
      let captured_pawn := pieceAt g2 source_row col
      let s :=
        if captured_pawn.owner = PlayerType.WHITE then
          { s with captured_white_pieces := s.captured_white_pieces ++ [captured_pawn] }
        else
          { s with captured_black_pieces := s.captured_black_pieces ++ [captured_pawn] }
      { s with grid := setPiece g2 source_row col NO_PIECE }
    else if is_promotion then
      -- Handle pawn promotion - move pawn but don't switch turns yet
      -- Track captured piece if promoting with capture
      let s :=
        if destination_piece.type ≠ PieceType.NONE then
          if destination_piece.owner = PlayerType.WHITE then
            { s with captured_white_pieces := s.captured_white_pieces ++ [destination_piece] }
          else
            { s with captured_black_pieces := s.captured_black_pieces ++ [destination_piece] }
        else s
      let g1 := setPiece s.grid row col moved_piece
      let g2 := setPiece g1 source_row source_col NO_PIECE
      -- Set promotion state
      { s with grid := g2, promotion_pending := true, promotion_row := row,
               promotion_col := col, promotion_player := piece_owner }
    else
      -- Regular move: place piece at destination, clear source square
      let g1 := setPiece s.grid row col moved_piece
      { s with grid := setPiece g1 source_row source_col NO_PIECE }
  -- Update castling rights when pieces move
  let s :=
    if piece_type = PieceType.KING then
      if piece_owner = PlayerType.WHITE then { s with white_king_moved := true }
      else { s with black_king_moved := true }
    else if piece_type = PieceType.ROOK then
      if piece_owner = PlayerType.WHITE then
        if source_col = 0 then { s with white_queenside_rook_moved := true }
        else if source_col = 7 then { s with white_kingside_rook_moved := true }
        else s
      else
        if source_col = 0 then { s with black_queenside_rook_moved := true }
        else if source_col = 7 then { s with black_kingside_rook_moved := true }
        else s
    else s
  -- Update en passant target
  let s := { s with en_passant_target :=
    get_en_passant_target source_row source_col row col piece_type piece_owner }
  -- Reset drag tracking
  let s := end_drag s
  -- 50-move rule: increment halfmove clock unless pawn move or capture
  let s :=
    if piece_type = PieceType.PAWN || is_capture then { s with halfmove_clock := 0 }
    else { s with halfmove_clock := s.halfmove_clock + 1 }
  -- For promotion moves, record the move and return without switching turns
  if is_promotion then
    let move_count := s.move_history.length + 1
    let move_detail := move_detail_string move_count piece_owner piece_type
      source_row source_col row col "Promotion"
    { s with move_history := s.move_history ++ [move_detail] }
  else
    -- Switch turns (if validation enabled)
    let s :=
      if s.turn_validation_enabled then
        { s with current_player :=
          if s.current_player = PlayerType.WHITE then PlayerType.BLACK else PlayerType.WHITE }
      else s
    -- Track position for threefold repetition (after turn switch)
    let current_position := get_position_string s
    let s := { s with position_history := s.position_history ++ [current_position] }
    -- Save state for undo functionality (after making the move and switching turns)
    let s := { s with
      board_history := s.board_history ++ [copy_board s.grid]
      player_history := s.player_history ++ [s.current_player]
      captured_white_history := s.captured_white_history ++ [s.captured_white_pieces]
      captured_black_history := s.captured_black_history ++ [s.captured_black_pieces]
      en_passant_history := s.en_passant_history ++ [s.en_passant_target]
      halfmove_clock_history := s.halfmove_clock_history ++ [s.halfmove_clock]
      position_history_snapshots := s.position_history_snapshots ++ [s.position_history] }
    -- Move notation for the history line (check suffix "+" is toast-only,
    -- appended after the history line has been recorded)
    let move_notation :=
      if is_castling then (if col > source_col then "O-O" else "O-O-O")
      else if is_en_passant then
        col_letters source_col ++ "x" ++ col_letters col ++ toString (8 - row) ++ " e.p."
      else get_chess_san piece_type source_row source_col row col is_capture
    let move_count := s.move_history.length + 1
    let move_detail := move_detail_string move_count piece_owner piece_type
      source_row source_col row col move_notation
    let s := { s with move_history := s.move_history ++ [move_detail] }
    -- Check for game ending conditions after the move
    check_game_ending_conditions s

/-- Handles the drop event for a chess piece (chessgame.py
`ChessState.on_piece_drop`), in the case where the drag payload carries
complete piece data (`row`, `col`, `piece_type`, `piece_owner` all
present), as the UI always sends.  `row`,`col` is the drop target;
`source_row`,`source_col`,`piece_type`,`piece_owner` come from the drag
payload. -/
def on_piece_drop (s : ChessState) (row col source_row source_col : Int)
    (piece_type : PieceType) (piece_owner : PlayerType) : ChessState :=
  -- Prevent moves if game is over
  if s.game_over then s
  else
    -- Set drag state if not already set (for highlighting)
    let s :=
      if s.dragging_piece_row = -1 then
        { s with dragging_piece_row := source_row, dragging_piece_col := source_col }
      else s
    -- Check if dropping on the same square (cancel move)
    if source_row = row ∧ source_col = col then end_drag s
    -- Check if it's the correct player's turn (if validation enabled)
    else if s.turn_validation_enabled && piece_owner ≠ s.current_player then end_drag s
    else
      -- Check if destination square is occupied by own piece
      let destination_piece := pieceAt s.grid row col
      if destination_piece.type ≠ PieceType.NONE ∧ destination_piece.owner = piece_owner then
        end_drag s
      else
        -- Check for special moves
        let is_castling := is_castling_move s.grid source_row source_col row col
        let is_en_passant :=
          is_en_passant_move s.grid source_row source_col row col s.en_passant_target
        let is_promotion := is_pawn_promotion source_row row piece_type piece_owner
        if is_castling then
          -- Validate castling (the probes write to the shared grid; the
          -- state keeps whatever the engine left there)
          let vc := state_is_valid_castling s source_row source_col row col piece_owner
          let s := { s with grid := vc.snd }
          if !vc.fst then end_drag s
          else execute_drop s row col source_row source_col piece_type piece_owner
            is_castling is_en_passant is_promotion
        else
          -- Validate regular move according to chess rules
          if !(is_valid_move s.grid source_row source_col row col s.en_passant_target) then
            end_drag s
          -- Check if this move would leave the player's own king in check
          -- (the engine restores the grid exactly; proved below)
          else if (would_leave_king_in_check s.grid source_row source_col row col
              piece_owner).fst then
            end_drag s
          else execute_drop s row col source_row source_col piece_type piece_owner
            is_castling is_en_passant is_promotion

/-- Spec §3 data-model invariant: an unoccupied square is exactly the
`NO_PIECE` sentinel ("Empty type and None owner are always paired"). -/
def emptySquaresAreSentinel (g : Grid) : Prop :=
  ∀ r ∈ range8, ∀ c ∈ range8,
    (pieceAt g r c).type = PieceType.NONE → pieceAt g r c = NO_PIECE

instance : DecidablePred emptySquaresAreSentinel := fun g => by
  unfold emptySquaresAreSentinel; infer_instance

/-- The spec's wording of pawn legality (spec §4.1 "Pawn"), for comparison
with the source's `is_valid_move`: one-square forward into an empty square;
two-square forward only from the home rank (row 6 White / row 1 Black) with
both intervening squares empty; diagonal onto an enemy-occupied square; or
diagonal onto an empty square equal to the en-passant target.  The bounds
conjunct restricts the statement to board squares. -/
def pawn_move_spec (g : Grid) (from_row from_col to_row to_col : Int)
    (owner : PlayerType) (ep : Option (Int × Int)) : Prop :=
  let direction : Int := if owner = PlayerType.WHITE then -1 else 1
  let start_row : Int := if owner = PlayerType.WHITE then 6 else 1
  (0 ≤ to_row ∧ to_row < 8 ∧ 0 ≤ to_col ∧ to_col < 8) ∧
  ((to_col = from_col ∧ to_row = from_row + direction ∧
      (pieceAt g to_row to_col).type = PieceType.NONE) ∨
   (to_col = from_col ∧ from_row = start_row ∧ to_row = from_row + 2 * direction ∧
      (pieceAt g to_row to_col).type = PieceType.NONE ∧
      (pieceAt g (from_row + direction) to_col).type = PieceType.NONE) ∨
   ((from_col - to_col).natAbs = 1 ∧ to_row = from_row + direction ∧
      (pieceAt g to_row to_col).type ≠ PieceType.NONE ∧
      (pieceAt g to_row to_col).owner ≠ owner) ∨
   ((from_col - to_col).natAbs = 1 ∧ to_row = from_row + direction ∧
      (pieceAt g to_row to_col).type = PieceType.NONE ∧ ep = some (to_row, to_col)))

/-- An empty board row. -/
def emptyRow : List Piece :=
  [NO_PIECE, NO_PIECE, NO_PIECE, NO_PIECE, NO_PIECE, NO_PIECE, NO_PIECE, NO_PIECE]

/-- A board whose only pieces are a White king on c1 = (7,2), a White rook
on a1 = (7,0) with (7,1) empty, and a Black king far away on h8 = (0,7). -/
def castling_bug_board : Grid :=
  [ [NO_PIECE, NO_PIECE, NO_PIECE, NO_PIECE, NO_PIECE, NO_PIECE, NO_PIECE,
     ⟨PieceType.KING, PlayerType.BLACK⟩],
    emptyRow, emptyRow, emptyRow, emptyRow, emptyRow, emptyRow,
    [⟨PieceType.ROOK, PlayerType.WHITE⟩, NO_PIECE, ⟨PieceType.KING, PlayerType.WHITE⟩,
     NO_PIECE, NO_PIECE, NO_PIECE, NO_PIECE, NO_PIECE] ]

/-- A board whose only piece is a Black king at (4,4); (4,6) is empty. -/
def lone_black_king_board : Grid :=
  [ emptyRow, emptyRow, emptyRow, emptyRow,
    [NO_PIECE, NO_PIECE, NO_PIECE, NO_PIECE, ⟨PieceType.KING, PlayerType.BLACK⟩,
     NO_PIECE, NO_PIECE, NO_PIECE],
    emptyRow, emptyRow, emptyRow ]

/-- The same board with a White king two files away at (4,6). -/
def two_kings_board : Grid :=
  [ emptyRow, emptyRow, emptyRow, emptyRow,
    [NO_PIECE, NO_PIECE, NO_PIECE, NO_PIECE, ⟨PieceType.KING, PlayerType.BLACK⟩,
     NO_PIECE, ⟨PieceType.KING, PlayerType.WHITE⟩, NO_PIECE],
    emptyRow, emptyRow, emptyRow ]

/-- A fresh game whose halfmove clock has reached the fifty-move threshold. -/
def fifty_move_state : ChessState :=
  { initial_state with halfmove_clock := 100 }

/-!
The knight-shuffle trace for repetition: from the reset state, play
Ng1-f3, Ng8-f6, Nf3-g1, Nf6-g8, Ng1-f3.  After the fifth move the position
(White knight back on f3, Black to move, full castling rights, no
en-passant target) has occurred exactly twice, counting the current one.
-/

/-- After 1. Ng1-f3 (source (7,6), target (5,5)). -/
def rep_state1 : ChessState :=
  on_piece_drop initial_state 5 5 7 6 PieceType.KNIGHT PlayerType.WHITE

/-- After 1... Ng8-f6. -/
def rep_state2 : ChessState :=
  on_piece_drop rep_state1 2 5 0 6 PieceType.KNIGHT PlayerType.BLACK

/-- After 2. Nf3-g1. -/
def rep_state3 : ChessState :=
  on_piece_drop rep_state2 7 6 5 5 PieceType.KNIGHT PlayerType.WHITE

/-- After 2... Nf6-g8: the starting position again (still recorded only
once, since the pre-game position is never pushed to `position_history`). -/
def rep_state4 : ChessState :=
  on_piece_drop rep_state3 0 6 2 5 PieceType.KNIGHT PlayerType.BLACK

/-- After 3. Ng1-f3: the second occurrence of the position after move 1. -/
def rep_state5 : ChessState :=
  on_piece_drop rep_state4 5 5 7 6 PieceType.KNIGHT PlayerType.WHITE

/-!  Frame lemmas for the mutate-then-restore pattern.  -/

/-- Writing back the element a list already holds is a no-op. -/
theorem list_set_getD_self {α : Type} (l : List α) (n : Nat) (d : α) :
    l.set n (l.getD n d) = l := by
  induction l generalizing n with
  | nil => simp
  | cons x xs ih =>
    cases n with
    | zero => simp
    | succ m =>
      rw [List.getD_cons_succ]
      show x :: xs.set m (xs.getD m d) = x :: xs
      rw [ih]

/-- Reading beside a write is unaffected by it. -/
theorem list_getD_set_ne {α : Type} (l : List α) (i j : Nat) (a d : α) (h : i ≠ j) :
    (l.set i a).getD j d = l.getD j d := by
  simp [List.getD_eq_getElem?_getD, List.getElem?_set, h]

/-- Reading back a just-written in-range list entry gives the written row. -/
theorem list_getD_set_self {α : Type} (l : List α) (i : Nat) (a d : α)
    (h : i < l.length) : (l.set i a).getD i d = a := by
  simp [List.getD_eq_getElem?_getD, List.getElem?_set, h]

/-- Two successive writes to the same square collapse to the second. -/
theorem setPiece_setPiece_same (g : Grid) (r c : Int) (a b : Piece) :
    setPiece (setPiece g r c a) r c b = setPiece g r c b := by
  unfold setPiece
  by_cases hb : 0 ≤ r ∧ r < 8 ∧ 0 ≤ c ∧ c < 8
  · rw [if_pos hb, if_pos hb, if_pos hb]
    rcases Nat.lt_or_ge r.toNat g.length with hlt | hge
    · rw [list_getD_set_self _ _ _ _ hlt, List.set_set, List.set_set]
    · rw [List.set_eq_of_length_le hge]
  · rw [if_neg hb, if_neg hb, if_neg hb]

/-- Writing a square's current contents back is a no-op. -/
theorem setPiece_pieceAt_self (g : Grid) (r c : Int) :
    setPiece g r c (pieceAt g r c) = g := by
  unfold setPiece pieceAt
  by_cases hb : 0 ≤ r ∧ r < 8 ∧ 0 ≤ c ∧ c < 8
  · rw [if_pos hb, if_pos hb, list_set_getD_self, list_set_getD_self]
  · rw [if_neg hb]

/-- Writing a value known to be a square's current contents is a no-op. -/
theorem setPiece_self_of (g : Grid) (r c : Int) (v : Piece) (h : pieceAt g r c = v) :
    setPiece g r c v = g := by
  rw [← h]; exact setPiece_pieceAt_self g r c

/-- Reading a square other than the written one is unaffected. -/
theorem pieceAt_setPiece_ne (g : Grid) (r c r' c' : Int) (v : Piece)
    (h : ¬(r' = r ∧ c' = c)) : pieceAt (setPiece g r c v) r' c' = pieceAt g r' c' := by
  unfold setPiece pieceAt
  by_cases hb : 0 ≤ r ∧ r < 8 ∧ 0 ≤ c ∧ c < 8
  · rw [if_pos hb]
    by_cases hb' : 0 ≤ r' ∧ r' < 8 ∧ 0 ≤ c' ∧ c' < 8
    · rw [if_pos hb', if_pos hb']
      by_cases hr : r' = r
      · subst hr
        have hc : c.toNat ≠ c'.toNat := by
          have hne : c' ≠ c := fun hcc => h ⟨rfl, hcc⟩
          omega
        rcases Nat.lt_or_ge r'.toNat g.length with hlt | hge
        · rw [list_getD_set_self _ _ _ _ hlt, list_getD_set_ne _ _ _ _ _ hc]
        · rw [List.set_eq_of_length_le hge]
      · have hr' : r.toNat ≠ r'.toNat := by omega
        rw [list_getD_set_ne _ _ _ _ _ hr']
    · rw [if_neg hb', if_neg hb']
  · rw [if_neg hb]

/-- Writes to two distinct squares commute. -/
theorem setPiece_comm (g : Grid) (r c r' c' : Int) (v v' : Piece)
    (h : ¬(r' = r ∧ c' = c)) :
    setPiece (setPiece g r c v) r' c' v' = setPiece (setPiece g r' c' v') r c v := by
  unfold setPiece
  by_cases hb : 0 ≤ r ∧ r < 8 ∧ 0 ≤ c ∧ c < 8
  · by_cases hb' : 0 ≤ r' ∧ r' < 8 ∧ 0 ≤ c' ∧ c' < 8
    · simp only [if_pos hb, if_pos hb']
      by_cases hr : r' = r
      · subst hr
        have hc : c.toNat ≠ c'.toNat := by
          have hne : c' ≠ c := fun hcc => h ⟨rfl, hcc⟩
          omega
        rcases Nat.lt_or_ge r'.toNat g.length with hlt | hge
        · rw [list_getD_set_self _ _ _ _ hlt, list_getD_set_self _ _ _ _ hlt,
            List.set_set, List.set_set, List.set_comm _ _ _ hc]
        · simp only [List.set_eq_of_length_le hge]
      · have hrn : r.toNat ≠ r'.toNat := by omega
        rw [list_getD_set_ne _ _ _ _ _ hrn, list_getD_set_ne _ _ _ _ _ (Ne.symm hrn),
          List.set_comm _ _ _ hrn]
    · simp only [if_pos hb, if_neg hb']
  · by_cases hb' : 0 ≤ r' ∧ r' < 8 ∧ 0 ≤ c' ∧ c' < 8
    · simp only [if_neg hb, if_pos hb']
    · simp only [if_neg hb, if_neg hb']

/-- A square holding a piece (non-NONE type) is in range. -/
theorem pieceAt_ne_none_in_range (g : Grid) (r c : Int)
    (h : (pieceAt g r c).type ≠ PieceType.NONE) : 0 ≤ r ∧ r < 8 ∧ 0 ≤ c ∧ c < 8 := by
  by_contra hcon
  unfold pieceAt at h
  rw [if_neg hcon] at h
  exact h rfl

/-- Membership in `range8` is just the range condition. -/
theorem mem_range8 (r : Int) (h1 : 0 ≤ r) (h2 : r < 8) : r ∈ range8 := by
  simp only [range8, List.mem_cons, List.mem_singleton]
  omega

/-- `would_leave_king_in_check` hands back the untouched board: the two
restore writes exactly undo the two probe writes, on either outcome. -/
theorem would_leave_restores (g : Grid) (fr fc tr tc : Int) (p : PlayerType) :
    (would_leave_king_in_check g fr fc tr tc p).snd = g := by
  show setPiece (setPiece (setPiece (setPiece g tr tc (pieceAt g fr fc)) fr fc NO_PIECE)
      fr fc (pieceAt g fr fc)) tr tc (pieceAt g tr tc) = g
  by_cases hft : tr = fr ∧ tc = fc
  · obtain ⟨h1, h2⟩ := hft
    subst h1; subst h2
    rw [setPiece_setPiece_same, setPiece_setPiece_same, setPiece_setPiece_same,
      setPiece_pieceAt_self]
  · rw [setPiece_setPiece_same]
    have hne : ¬(fr = tr ∧ fc = tc) := fun hh => hft ⟨hh.1.symm, hh.2.symm⟩
    rw [setPiece_self_of _ _ _ _ (pieceAt_setPiece_ne g tr tc fr fc _ hne)]
    rw [setPiece_setPiece_same, setPiece_pieceAt_self]

/-- A castling probe restores the board exactly, provided the probed
square is genuinely empty (the `NO_PIECE` sentinel). -/
theorem castlingProbe_restores (g : Grid) (fr fc t : Int) (p : PlayerType)
    (hne : fc ≠ t) (hempty : pieceAt g fr t = NO_PIECE) :
    (castlingProbe g fr fc t p).snd = g := by
  show setPiece (setPiece (setPiece (setPiece g fr fc NO_PIECE) fr t (pieceAt g fr fc))
      fr fc (pieceAt g fr fc)) fr t NO_PIECE = g
  have hcell : ¬(fr = fr ∧ t = fc) := fun hh => hne hh.2.symm
  have hcell' : ¬(fr = fr ∧ fc = t) := fun hh => hne hh.2
  rw [setPiece_comm g fr fc fr t NO_PIECE (pieceAt g fr fc) hcell]
  rw [setPiece_setPiece_same]
  rw [setPiece_self_of _ _ _ _ (pieceAt_setPiece_ne g fr t fr fc _ hcell')]
  rw [setPiece_setPiece_same]
  rw [setPiece_self_of _ _ _ _ hempty]

set_option maxHeartbeats 1000000 in
/-- With the king on its home column 4 and genuinely empty squares encoded
as the sentinel, every path `is_valid_castling` takes hands back the
untouched board. -/
theorem is_valid_castling_restores_home (g : Grid) (fr tr tc : Int) (p : PlayerType)
    (km kr qr : Bool) (hsent : emptySquaresAreSentinel g) :
    (is_valid_castling g fr 4 tr tc p km kr qr).snd = g := by
  unfold is_valid_castling
  split_ifs with h1 h2 h3
  · simp only [ite_self]
  · simp only [ite_self]
  · simp only [ite_self]
  push_neg at h2
  have htc : tc = 2 ∨ tc = 6 := by omega
  have hkingR : ∀ hkk : (pieceAt g fr 4).type = PieceType.KING, fr ∈ range8 := by
    intro hkk
    have hne4 : (pieceAt g fr 4).type ≠ PieceType.NONE := by rw [hkk]; decide
    have hb := pieceAt_ne_none_in_range g fr 4 hne4
    exact mem_range8 fr hb.1 hb.2.1
  rcases htc with htc | htc
  · subst htc
    norm_num
    by_cases hk : ¬(pieceAt g fr 4).type = PieceType.KING ∨ ¬(pieceAt g fr 4).owner = p
    · rw [if_pos hk]
    · rw [if_neg hk]
      push_neg at hk
      by_cases hq : qr = true
      · rw [if_pos hq]
      · rw [if_neg hq]
        by_cases hrk : ¬(pieceAt g fr 0).type = PieceType.ROOK ∨ ¬(pieceAt g fr 0).owner = p
        · rw [if_pos hrk]
        · rw [if_neg hrk]
          by_cases hpath : ∃ x ∈ intRange 1 4, ¬(pieceAt g fr x).type = PieceType.NONE
          · rw [if_pos hpath]
          · rw [if_neg hpath]
            push_neg at hpath
            have hmem : fr ∈ range8 := hkingR hk.1
            have he3 : pieceAt g fr 3 = NO_PIECE :=
              hsent fr hmem 3 (by decide) (hpath 3 (by decide))
            have he2 : pieceAt g fr 2 = NO_PIECE :=
              hsent fr hmem 2 (by decide) (hpath 2 (by decide))
            rw [castlingProbe_restores g fr 4 3 p (by decide) he3]
            rw [castlingProbe_restores g fr 4 2 p (by decide) he2]
            split_ifs <;> rfl
  · subst htc
    norm_num
    by_cases hk : ¬(pieceAt g fr 4).type = PieceType.KING ∨ ¬(pieceAt g fr 4).owner = p
    · rw [if_pos hk]
    · rw [if_neg hk]
      push_neg at hk
      by_cases hq : kr = true
      · rw [if_pos hq]
      · rw [if_neg hq]
        by_cases hrk : ¬(pieceAt g fr 7).type = PieceType.ROOK ∨ ¬(pieceAt g fr 7).owner = p
        · rw [if_pos hrk]
        · rw [if_neg hrk]
          by_cases hpath : ∃ x ∈ intRange 5 7, ¬(pieceAt g fr x).type = PieceType.NONE
          · rw [if_pos hpath]
          · rw [if_neg hpath]
            push_neg at hpath
            have hmem : fr ∈ range8 := hkingR hk.1
            have he5 : pieceAt g fr 5 = NO_PIECE :=
              hsent fr hmem 5 (by decide) (hpath 5 (by decide))
            have he6 : pieceAt g fr 6 = NO_PIECE :=
              hsent fr hmem 6 (by decide) (hpath 6 (by decide))
            rw [castlingProbe_restores g fr 4 5 p (by decide) he5]
            rw [castlingProbe_restores g fr 4 6 p (by decide) he6]
            split_ifs <;> rfl

/-!  Claim theorems.  -/

/-- Claim C1: the spec says a repetition draw requires the current
repetition key to occur at least 3 times counting the current position,
and that at exactly two occurrences no repetition draw is set.  The code
violates this: `position_history` already contains the current position
when `check_game_ending_conditions` runs, so `count >= 2` fires at the
second occurrence.  Concretely, after the five knight moves of the
`rep_state` trace from the reset state, the current key occurs exactly
twice, yet the game is over with winner DRAW (fifty-move rule not
triggered, the repetition branch is). -/
theorem C1_repetition_draw_fires_at_second_occurrence :
    rep_state5.position_history.count (get_position_string rep_state5) = 2 ∧
    rep_state5.game_over = true ∧
    rep_state5.winner = "DRAW" ∧
    check_fifty_move_rule rep_state5 = false ∧
    check_threefold_repetition rep_state5 = true ∧
    rep_state4.game_over = false := by
  decide

/-- Claim C2: with the game not yet over, `check_game_ending_conditions`
tests fifty-move rule, then repetition, then checkmate, then stalemate;
the first matching condition sets GameOver.  In particular a state that
reaches the fifty-move threshold while the current player is checkmated is
scored DRAW, not a checkmate win. -/
theorem C2_termination_order (s : ChessState) (h : s.game_over = false) :
    (check_fifty_move_rule s = true →
      (check_game_ending_conditions s).game_over = true ∧
      (check_game_ending_conditions s).winner = "DRAW") ∧
    (check_fifty_move_rule s = true →
      is_checkmate s.grid s.current_player s.en_passant_target = true →
      (check_game_ending_conditions s).game_over = true ∧
      (check_game_ending_conditions s).winner = "DRAW") ∧
    (check_fifty_move_rule s = false → check_threefold_repetition s = true →
      (check_game_ending_conditions s).game_over = true ∧
      (check_game_ending_conditions s).winner = "DRAW") ∧
    (check_fifty_move_rule s = false → check_threefold_repetition s = false →
      is_checkmate s.grid s.current_player s.en_passant_target = true →
      (check_game_ending_conditions s).game_over = true ∧
      (check_game_ending_conditions s).winner =
        (if s.current_player = PlayerType.WHITE then "BLACK" else "WHITE")) ∧
    (check_fifty_move_rule s = false → check_threefold_repetition s = false →
      is_checkmate s.grid s.current_player s.en_passant_target = false →
      is_stalemate s.grid s.current_player s.en_passant_target = true →
      (check_game_ending_conditions s).game_over = true ∧
      (check_game_ending_conditions s).winner = "DRAW") := by
  refine ⟨fun h50 => ?_, fun h50 hcm => ?_, fun h50 hrep => ?_,
    fun h50 hrep hcm => ?_, fun h50 hrep hcm hst => ?_⟩ <;>
    simp [check_game_ending_conditions, h, h50]
  · simp [hrep]
  · simp [hrep, hcm]
  · simp [hrep, hcm, hst]

/-- Claim C2 witness: a reset-state game whose halfmove clock is 100 is
scored a DRAW by `check_game_ending_conditions`. -/
theorem C2_termination_order_witness :
    fifty_move_state.game_over = false ∧ check_fifty_move_rule fifty_move_state = true ∧
    (check_game_ending_conditions fifty_move_state).game_over = true ∧
    (check_game_ending_conditions fifty_move_state).winner = "DRAW" :=
  ⟨rfl, rfl,
    ((C2_termination_order fifty_move_state rfl).1 rfl).1,
    ((C2_termination_order fifty_move_state rfl).1 rfl).2⟩

/-- Claim C3 counterexample: `is_valid_castling` does NOT always restore
the board.  With the White king on (7,2) and the White rook on (7,0), the
second castling probe writes the king onto the rook's square and then
"restores" that square to empty, erasing the rook, while the validation
succeeds. -/
theorem C3_castling_mutates_board :
    (is_valid_castling castling_bug_board 7 2 7 0 PlayerType.WHITE
        false false false).snd ≠ castling_bug_board ∧
    (is_valid_castling castling_bug_board 7 2 7 0 PlayerType.WHITE
        false false false).fst = true ∧
    pieceAt castling_bug_board 7 0 = ⟨PieceType.ROOK, PlayerType.WHITE⟩ ∧
    pieceAt (is_valid_castling castling_bug_board 7 2 7 0 PlayerType.WHITE
        false false false).snd 7 0 = NO_PIECE := by
  decide

/-- Claim C3 amended: `would_leave_king_in_check` always returns with the
board exactly as before the call, on both outcomes; `is_valid_castling`
restores the board after each king-relocation probe provided the king
starts on its home column 4 (so the probed squares lie strictly between
king and rook and are guaranteed empty by the path check) and empty
squares are the `NO_PIECE` sentinel — with the king elsewhere (e.g.
column 2) a successful probe of the rook's square erases the rook. -/
theorem C3_board_restoration (g : Grid) (fr fc tr tc : Int) (p : PlayerType)
    (km kr qr : Bool) :
    (would_leave_king_in_check g fr fc tr tc p).snd = g ∧
    (fc = 4 → emptySquaresAreSentinel g →
      (is_valid_castling g fr fc tr tc p km kr qr).snd = g) := by
  refine ⟨would_leave_restores g fr fc tr tc p, fun h4 hsent => ?_⟩
  subst h4
  exact is_valid_castling_restores_home g fr tr tc p km kr qr hsent

/-- Claim C3 witness: on the starting board (a sentinel board, king on
column 4), a regular move probe and a castling probe both hand back the
board unchanged. -/
theorem C3_board_restoration_witness :
    ((4:Int) = 4) ∧ emptySquaresAreSentinel create_default_board ∧
    (would_leave_king_in_check create_default_board 7 6 5 5 PlayerType.WHITE).snd =
      create_default_board ∧
    (is_valid_castling create_default_board 7 4 7 6 PlayerType.WHITE
        false false false).snd = create_default_board :=
  ⟨rfl, by decide,
    (C3_board_restoration create_default_board 7 6 5 5 PlayerType.WHITE
      false false false).1,
    (C3_board_restoration create_default_board 7 4 7 6 PlayerType.WHITE
      false false false).2 rfl (by decide)⟩

/-- Claim C4: `is_checkmate` is exactly in-check with no legal moves, and
`is_stalemate` is exactly not-in-check with no legal moves. -/
theorem C4_checkmate_stalemate_characterisation (g : Grid) (p : PlayerType)
    (ep : Option (Int × Int)) :
    (is_checkmate g p ep = true ↔
      is_in_check g p = true ∧ get_all_legal_moves g p ep = []) ∧
    (is_stalemate g p ep = true ↔
      is_in_check g p = false ∧ get_all_legal_moves g p ep = []) := by
  cases h : is_in_check g p <;>
    simp [is_checkmate, is_stalemate, h, List.length_eq_zero]

/-- Claim C5: `undo_last_move` is refused — every field of the state
unchanged — when fewer than 2 snapshots exist or the game is over;
otherwise it pops the newest snapshot from every history stack and
restores board, player, captured-piece lists, en-passant target, halfmove
clock and repetition-key list from the new top, clearing the game-over
flag and winner. -/
theorem C5_undo_behaviour (s : ChessState) :
    (s.board_history.length < 2 ∨ s.game_over = true → undo_last_move s = s) ∧
    (2 ≤ s.board_history.length → s.game_over = false →
      (undo_last_move s).board_history = s.board_history.dropLast ∧
      (undo_last_move s).grid = copy_board (s.board_history.dropLast.getLastD []) ∧
      (undo_last_move s).current_player =
        s.player_history.dropLast.getLastD PlayerType.WHITE ∧
      (undo_last_move s).captured_white_pieces =
        s.captured_white_history.dropLast.getLastD [] ∧
      (undo_last_move s).captured_black_pieces =
        s.captured_black_history.dropLast.getLastD [] ∧
      (undo_last_move s).en_passant_target =
        s.en_passant_history.dropLast.getLastD none ∧
      (undo_last_move s).halfmove_clock =
        s.halfmove_clock_history.dropLast.getLastD 0 ∧
      (undo_last_move s).position_history =
        s.position_history_snapshots.dropLast.getLastD [] ∧
      (undo_last_move s).player_history = s.player_history.dropLast ∧
      (undo_last_move s).captured_white_history = s.captured_white_history.dropLast ∧
      (undo_last_move s).captured_black_history = s.captured_black_history.dropLast ∧
      (undo_last_move s).en_passant_history = s.en_passant_history.dropLast ∧
      (undo_last_move s).halfmove_clock_history = s.halfmove_clock_history.dropLast ∧
      (undo_last_move s).position_history_snapshots =
        s.position_history_snapshots.dropLast ∧
      (undo_last_move s).move_history = s.move_history.dropLast ∧
      (undo_last_move s).game_over = false ∧
      (undo_last_move s).winner = "") := by
  constructor
  · intro h
    unfold undo_last_move
    by_cases h2 : s.board_history.length < 2
    · rw [if_pos h2]
    · rcases h with h | h
      · exact absurd h h2
      · rw [if_neg h2, if_pos h]
  · intro hlen hgo
    unfold undo_last_move
    rw [if_neg (by omega), if_neg (by simp [hgo])]
    exact ⟨rfl, rfl, rfl, rfl, rfl, rfl, rfl, rfl, rfl, rfl, rfl, rfl, rfl, rfl,
      rfl, rfl, rfl⟩

/-- Claim C5 witness: the reset state (one snapshot) refuses undo; the
one-move state `rep_state1` (two snapshots) accepts it and pops its board
history. -/
theorem C5_undo_behaviour_witness :
    (initial_state.board_history.length < 2 ∨ initial_state.game_over = true) ∧
    undo_last_move initial_state = initial_state ∧
    (2 ≤ rep_state1.board_history.length ∧ rep_state1.game_over = false) ∧
    (undo_last_move rep_state1).board_history = rep_state1.board_history.dropLast :=
  ⟨Or.inl (by decide),
    (C5_undo_behaviour initial_state).1 (Or.inl (by decide)),
    ⟨by decide, by decide⟩,
    ((C5_undo_behaviour rep_state1).2 (by decide) (by decide)).1⟩

set_option maxHeartbeats 1000000 in
/-- Claim C6: for a pawn on the source square, `is_valid_move` accepts a
move exactly when it is a one-square forward advance into an empty square,
a two-square advance from the home rank over two empty squares, a diagonal
capture of an enemy piece, or a diagonal move onto the empty en-passant
target square (`pawn_move_spec` is the spec's wording). -/
theorem C6_pawn_move_characterisation (g : Grid) (fr fc tr tc : Int)
    (owner : PlayerType) (ep : Option (Int × Int))
    (hpawn : pieceAt g fr fc = ⟨PieceType.PAWN, owner⟩)
    (howner : owner = PlayerType.WHITE ∨ owner = PlayerType.BLACK) :
    is_valid_move g fr fc tr tc ep = true ↔ pawn_move_spec g fr fc tr tc owner ep := by
  unfold is_valid_move is_valid_pawn_move pawn_move_spec
  rcases howner with h | h <;> subst h <;>
    simp only [hpawn, reduceIte] <;> split_ifs <;> simp_all <;> try omega
  all_goals
    refine ⟨by omega, fun hh => ?_⟩
    subst hh
    simp_all

/-- Claim C6 witness: the double advance e2-e4 from the starting board. -/
theorem C6_pawn_move_characterisation_witness :
    pieceAt create_default_board 6 4 = ⟨PieceType.PAWN, PlayerType.WHITE⟩ ∧
    (PlayerType.WHITE = PlayerType.WHITE ∨ PlayerType.WHITE = PlayerType.BLACK) ∧
    (is_valid_move create_default_board 6 4 4 4 none = true ↔
      pawn_move_spec create_default_board 6 4 4 4 PlayerType.WHITE none) :=
  ⟨by decide, Or.inl rfl,
    C6_pawn_move_characterisation create_default_board 6 4 4 4 PlayerType.WHITE none
      (by decide) (Or.inl rfl)⟩

/-- Claim C7: on the default starting board with no en-passant target,
White has exactly 20 legal moves. -/
theorem C7_twenty_opening_moves :
    (get_all_legal_moves create_default_board PlayerType.WHITE none).length = 20 := by
  decide

/-- Claim C8: on a board where the player has no king, `is_in_check`
reports not-in-check rather than erroring. -/
theorem C8_no_king_means_no_check (g : Grid) (p : PlayerType)
    (h : find_king g p = none) : is_in_check g p = false := by
  unfold is_in_check
  rw [h]

/-- Claim C8 witness: the empty board has no White king and no check. -/
theorem C8_no_king_means_no_check_witness :
    find_king ([] : Grid) PlayerType.WHITE = none ∧
    is_in_check ([] : Grid) PlayerType.WHITE = false :=
  ⟨by decide, C8_no_king_means_no_check [] PlayerType.WHITE (by decide)⟩

/-- Claim C9: `is_valid_move` accepts a lone king's two-column same-row
displacement as a geometric castling move, so a lone Black king at (4,4)
"attacks" (4,6), and a White king placed there is reported in check. -/
theorem C9_geometric_castling_attack :
    is_valid_move lone_black_king_board 4 4 4 6 none = true ∧
    is_square_under_attack lone_black_king_board 4 6 PlayerType.BLACK = true ∧
    is_in_check two_kings_board PlayerType.WHITE = true := by
  decide

/-- Claim C10: checkmate and stalemate never hold together: the former
requires being in check, the latter requires not being in check. -/
theorem C10_checkmate_stalemate_exclusive (g : Grid) (p : PlayerType)
    (ep : Option (Int × Int)) :
    (is_checkmate g p ep && is_stalemate g p ep) = false := by
  cases h : is_in_check g p <;> simp [is_checkmate, is_stalemate, h]
